import Mathlib

/-!
Shallow embedding of `ci/fireci/fireci/gradle.py`, a thin subprocess wrapper
that invokes the gradle wrapper script `./gradlew`.

Modelling decisions:
* The parent process environment (`os.environ`) is a partial map
  `String → Option String`, carried in a `PyState`; `run` threads this state
  explicitly and returns it, so frame properties about the parent environment
  are statable.
* `subprocess.Popen` is external: the call `run` makes to it is reified as a
  `PopenCall` record (command vector, cwd argument, environment), and the
  child's behaviour (the byte lines appearing on its merged stdout/stderr
  stream, and its exit code) is an input `ChildBehavior` of the model.
  Launch failures (executable missing) are outside the model, as they are
  outside the component's logic per the source.
* The observable actions of `run` (logger.info calls, the spawn, each line
  read from the pipe, the final `communicate()` wait) form an event trace,
  so ordering properties of the streaming loop are statable.
* Python `bytes.decode()` is strict UTF-8 decoding and can fail; the model
  returns `Option` and `run` surfaces a failure mid-loop as a distinct
  `decodeError`, mirroring a `UnicodeDecodeError` escaping the loop.
* `str.rstrip()` strips the trailing characters for which Python's
  `str.isspace()` holds; that character class is reproduced below.
* The objects `p.stdout` / `p.stderr` that the source passes into
  `CalledProcessError` and `CompletedProcess` are pipe stream handles, not
  captured text; a `StreamRef` records the state of such a handle (unread
  content remaining, and whether the handle is closed) at the moment it is
  stored.
-/

/-- A process environment: a partial map from variable names to values. -/
abbrev Env : Type := String → Option String

/-- Dictionary update `d[k] = v` on an environment copy. -/
def envSet (e : Env) (k v : String) : Env :=
  fun x => if x = k then some v else e x

/-- Module-level constant `ADB_INSTALL_TIMEOUT = '5'` from the source. -/
def ADB_INSTALL_TIMEOUT : String := "5"

/-- One step of Python `str.format` substitution: each `\x7b\x7d` placeholder
consumes the next positional argument; too few arguments is a failure
(`IndexError` in Python). Braces never occur in the substituted arguments of
this program, so nested formatting is not modelled. -/
def pyFormatAux : List Char → List String → Option (List Char)
  | [], _ => some []
  | c :: cs, args =>
    if c = '\x7b' then
      match cs, args with
      | d :: cs2, a :: as =>
        if d = '\x7d' then (pyFormatAux cs2 as).map (fun r => a.data ++ r)
        else none
      | _, _ => none
    else (pyFormatAux cs args).map (fun r => c :: r)

/-- Python `template.format(args...)` for positional `\x7b\x7d` placeholders. -/
def pyFormat (template : String) (args : List String) : Option String :=
  (pyFormatAux template.data args).map String.mk

/-- `P(name, value)`: returns name and value in the format of gradle's project
property cli argument, via `'-P\x7b\x7d=\x7b\x7d'.format(name, value)`. The
`getD` default is dead: the fixed template always matches two arguments. -/
def P (name value : String) : String :=
  (pyFormat "-P\x7b\x7d=\x7b\x7d" [name, value]).getD ""

/-- The characters for which Python `str.isspace()` is true. -/
def pyWhitespace : List Char :=
  [' ', '\t', '\n', '\r', '\x0b', '\x0c',
   '\x1c', '\x1d', '\x1e', '\x1f', '\x85', '\xa0',
   ' ', ' ', ' ', ' ', ' ', ' ', ' ',
   ' ', ' ', ' ', ' ', ' ',
   ' ', ' ', ' ', ' ', '　']

/-- Python `str.isspace()` on a single character. -/
def pyIsSpace (c : Char) : Bool := pyWhitespace.contains c

/-- Python `str.rstrip()` on a character list: remove trailing whitespace. -/
def pyRstrip (cs : List Char) : List Char :=
  (cs.reverse.dropWhile pyIsSpace).reverse

/-- Python `str.rstrip()` on a string. -/
def pyRstripStr (s : String) : String := String.mk (pyRstrip s.data)

/-- Strict UTF-8 decoding of a byte sequence (bytes as `Nat < 256`), as
performed by Python `bytes.decode()`: rejects truncated sequences, stray or
missing continuation bytes, overlong encodings, surrogates, and code points
above `0x10FFFF`. -/
def utf8DecodeChars : List Nat → Option (List Char)
  | [] => some []
  | b :: rest =>
    if b ≤ 0x7F then
      (utf8DecodeChars rest).map (fun cs => Char.ofNat b :: cs)
    else if 0xC2 ≤ b ∧ b ≤ 0xDF then
      match rest with
      | b1 :: rest1 =>
        if 0x80 ≤ b1 ∧ b1 ≤ 0xBF then
          (utf8DecodeChars rest1).map
            (fun cs => Char.ofNat ((b - 0xC0) * 0x40 + (b1 - 0x80)) :: cs)
        else none
      | [] => none
    else if 0xE0 ≤ b ∧ b ≤ 0xEF then
      match rest with
      | b1 :: b2 :: rest2 =>
        if (0x80 ≤ b1 ∧ b1 ≤ 0xBF) ∧ (0x80 ≤ b2 ∧ b2 ≤ 0xBF) then
          let cp := (b - 0xE0) * 0x1000 + (b1 - 0x80) * 0x40 + (b2 - 0x80)
          if 0x800 ≤ cp ∧ ¬(0xD800 ≤ cp ∧ cp ≤ 0xDFFF) then
            (utf8DecodeChars rest2).map (fun cs => Char.ofNat cp :: cs)
          else none
        else none
      | _ => none
    else if 0xF0 ≤ b ∧ b ≤ 0xF4 then
      match rest with
      | b1 :: b2 :: b3 :: rest3 =>
        if (0x80 ≤ b1 ∧ b1 ≤ 0xBF) ∧ (0x80 ≤ b2 ∧ b2 ≤ 0xBF) ∧
           (0x80 ≤ b3 ∧ b3 ≤ 0xBF) then
          let cp := (b - 0xF0) * 0x40000 + (b1 - 0x80) * 0x1000 +
                    (b2 - 0x80) * 0x40 + (b3 - 0x80)
          if 0x10000 ≤ cp ∧ cp ≤ 0x10FFFF then
            (utf8DecodeChars rest3).map (fun cs => Char.ofNat cp :: cs)
          else none
        else none
      | _ => none
    else none

/-- Python `line.decode()` on one byte line: strict UTF-8, `none` on failure. -/
def decodeLine (l : List Nat) : Option String :=
  (utf8DecodeChars l).map String.mk

/-- The environment dictionary `run` builds for the child: a copy of the
parent environment, with `GRADLE_OPTS` set when `gradle_opts` is truthy
(non-empty), and `ADB_INSTALL_TIMEOUT` set unconditionally. -/
def childEnv (parent : Env) (gradle_opts : String) : Env :=
  let new_env := if gradle_opts ≠ "" then envSet parent "GRADLE_OPTS" gradle_opts
                 else parent
  envSet new_env "ADB_INSTALL_TIMEOUT" ADB_INSTALL_TIMEOUT

/-- `command = ['./gradlew'] + list(args)`. -/
def commandOf (args : List String) : List String := "./gradlew" :: args

/-- What `run` passes to `subprocess.Popen`: the argument vector, the `cwd`
keyword argument (passed through as given), the environment, and the fact that
stderr is redirected into the piped stdout. -/
structure PopenCall where
  command : List String
  cwd : Option String
  env : Env
  mergeStderrIntoStdout : Bool

/-- The `Popen` call `run(args, gradle_opts, workdir, ...)` constructs. -/
def popenCallOf (parentEnv : Env) (args : List String) (gradle_opts : String)
    (workdir : Option String) : PopenCall :=
  { command := commandOf args
    cwd := workdir
    env := childEnv parentEnv gradle_opts
    mergeStderrIntoStdout := true }

/-- Documented behaviour of the process-launch primitive (`subprocess.Popen`)
for its `cwd` argument: `None` runs the child in the parent's current working
directory, otherwise in the given directory. The primitive is external
library code; only this resolution rule is modelled. -/
def effectiveCwd (parentCwd : String) (cwd : Option String) : String :=
  cwd.getD parentCwd

/-- State of a pipe stream handle (such as `p.stdout`) at the moment it is
stored into an error or result object: the byte lines not yet consumed from
it, and whether the handle has been closed. -/
structure StreamRef where
  remaining : List (List Nat)
  closed : Bool
deriving DecidableEq

/-- `subprocess.CalledProcessError(returncode, cmd, output, stderr)` as raised
by `run`: `output` receives the `p.stdout` handle, `stderr` receives
`p.stderr`, which is `None` because stderr was merged into stdout. -/
structure CalledProcessError where
  returncode : Int
  cmd : List String
  output : StreamRef
  stderr : Option StreamRef
deriving DecidableEq

/-- `subprocess.CompletedProcess(p.args, p.returncode, p.stdout, p.stderr)` as
returned by `run` on the non-raising path. -/
structure CompletedProcess where
  args : List String
  returncode : Int
  stdout : StreamRef
  stderr : Option StreamRef
deriving DecidableEq

/-- The ways `run` itself can fail: a `UnicodeDecodeError` escaping the
streaming loop on an undecodable output line, or the explicit
`CalledProcessError` raise. -/
inductive RunError where
  | decodeError (lineBytes : List Nat)
  | calledProcessError (e : CalledProcessError)
deriving DecidableEq

/-- Observable actions of `run`, in program order: a `logger.info` emission,
the process spawn, a line read from the child's merged output pipe (available
only once the child has produced it), and the `p.communicate()` wait for
child termination. -/
inductive Event where
  | logInfo (s : String)
  | spawn (command : List String) (cwd : Option String)
  | readLine (lineBytes : List Nat)
  | wait
deriving DecidableEq

/-- Behaviour of the spawned child: the byte lines it emits on its merged
stdout/stderr stream, and its exit code. -/
structure ChildBehavior where
  outputLines : List (List Nat)
  returncode : Int
deriving DecidableEq

/-- Mutable interpreter state visible to `run`: the parent `os.environ`. -/
structure PyState where
  osEnviron : Env

/-- Result of a modelled `run` call: the `Popen` call it made, its event
trace, and its outcome (an error raised, or the returned result record). -/
structure RunResult where
  call : PopenCall
  trace : List Event
  outcome : Except RunError CompletedProcess

/-- The streaming loop `for line in p.stdout: logger.info(line.decode().rstrip())`:
returns the events of the loop and, when some line fails to decode, that
first failing line (the loop stops there, the decode error propagating). -/
def loopTrace : List (List Nat) → List Event × Option (List Nat)
  | [] => ([], none)
  | l :: rest =>
    match decodeLine l with
    | none => ([Event.readLine l], some l)
    | some s =>
      let p := loopTrace rest
      (Event.readLine l :: Event.logInfo (pyRstripStr s) :: p.1, p.2)

/-- The `workdir if workdir else '.'` display value in the command log line. -/
def workdirDisplay : Option String → String
  | none => "."
  | some w => if w = "" then "." else w

/-- The formatted message of the initial
`logger.info('Executing gradle command: "%s" in directory: "%s"', ...)`. -/
def cmdLogLine (cmd : List String) (workdir : Option String) : String :=
  "Executing gradle command: \"" ++ String.intercalate " " cmd ++
    "\" in directory: \"" ++ workdirDisplay workdir ++ "\""

/-- Outcome of `run` after the loop: on a decode failure, that error
propagates; otherwise `if check and p.returncode:` raises
`CalledProcessError(p.returncode, p.args, p.stdout, p.stderr)` — at that
point `p.stdout` is the fully consumed (still open) pipe handle and
`p.stderr` is `None` — else `CompletedProcess(p.args, p.returncode, p.stdout,
p.stderr)` is returned, `p.stdout` by then closed by the `with` block exit. -/
def outcomeOf (call : PopenCall) (failedLine : Option (List Nat)) (check : Bool)
    (rc : Int) : Except RunError CompletedProcess :=
  match failedLine with
  | some bad => Except.error (RunError.decodeError bad)
  | none =>
    if check && (rc != 0) then
      Except.error (RunError.calledProcessError
        { returncode := rc
          cmd := call.command
          output := { remaining := [], closed := false }
          stderr := none })
    else
      Except.ok
        { args := call.command
          returncode := rc
          stdout := { remaining := [], closed := true }
          stderr := none }

/-- The model of `run(*args, gradle_opts='', workdir=None, check=True)`:
builds the child environment and command, logs the command line, spawns the
child, streams its output lines to the logger, waits for termination, and
checks the exit code. The parent state is threaded and returned: the source
never assigns to `os.environ`, only to the copy `new_env`. -/
def run (st : PyState) (args : List String) (gradle_opts : String)
    (workdir : Option String) (check : Bool) (child : ChildBehavior) :
    PyState × RunResult :=
  let call := popenCallOf st.osEnviron args gradle_opts workdir
  let lp := loopTrace child.outputLines
  (st,
   { call := call
     trace :=
       Event.logInfo (cmdLogLine call.command workdir) ::
         Event.spawn call.command call.cwd ::
           (lp.1 ++ if lp.2 = none then [Event.wait] else [])
     outcome := outcomeOf call lp.2 check child.returncode })

/-- The text of every `logger.info` call in a trace, in order. -/
def logTexts (evs : List Event) : List String :=
  evs.filterMap (fun e =>
    match e with
    | Event.logInfo s => some s
    | _ => none)

/-- The logged texts of a `run`, minus the initial command log line: exactly
the lines forwarded from the child's output stream. -/
def outputLogTexts (r : RunResult) : List String :=
  (logTexts r.trace).drop 1

/-- Example parent environment for concrete instantiations. -/
def envEx : Env :=
  fun k => if k = "PATH" then some "/usr/bin" else none

/-- Example interpreter state. -/
def stEx : PyState := { osEnviron := envEx }

/-- Example child: prints the bytes of `hi\n`, exits 0. -/
def childEx : ChildBehavior := { outputLines := [[104, 105, 10]], returncode := 0 }

/-- Example child: prints the bytes of `hi\n`, exits 1. -/
def childFail : ChildBehavior := { outputLines := [[104, 105, 10]], returncode := 1 }

/-- Example child: prints the bytes of ` hi \n` (trailing blank and newline),
exits 0. -/
def childEx2 : ChildBehavior :=
  { outputLines := [[32, 104, 105, 32, 10]], returncode := 0 }

/-! ## Helper lemmas -/

/-- When every output line decodes, the streaming loop reads each line and
immediately logs its decoded, right-stripped text, and reports no failure. -/
theorem loopTrace_decodable (ls : List (List Nat))
    (h : ∀ l ∈ ls, (decodeLine l).isSome) :
    loopTrace ls =
      (ls.flatMap (fun l =>
        [Event.readLine l, Event.logInfo (pyRstripStr ((decodeLine l).getD ""))]),
       none) := by
  induction ls with
  | nil => rfl
  | cons l rest ih =>
    obtain ⟨s, hs⟩ := Option.isSome_iff_exists.mp (h l (List.mem_cons_self _ _))
    have h2 : ∀ x ∈ rest, (decodeLine x).isSome :=
      fun x hx => h x (List.mem_cons_of_mem _ hx)
    simp [loopTrace, hs, ih h2]

/-- The `Popen` call of `run` is `popenCallOf` of its inputs. -/
theorem run_call (st : PyState) (args : List String) (gradle_opts : String)
    (workdir : Option String) (check : Bool) (child : ChildBehavior) :
    (run st args gradle_opts workdir check child).2.call =
      popenCallOf st.osEnviron args gradle_opts workdir := rfl

/-- The log texts of the read/log interleaving of the streaming loop,
followed by the wait, are the logged texts in order. -/
theorem logTexts_loop (f : List Nat → String) (ls : List (List Nat)) :
    logTexts (ls.flatMap (fun l => [Event.readLine l, Event.logInfo (f l)])
        ++ [Event.wait]) =
      ls.map f := by
  induction ls with
  | nil => rfl
  | cons l rest ih => simp [logTexts] at ih ⊢; simp [ih]

/-! ## Claims -/

/-- C1: for every invocation of `run`, an error is raised if and only if
`check` is true and the child's exit code is non-zero, and the raised error
carries the child's exit code; in every other case no error is raised and
`run` returns a result whose exit code equals the child's actual exit code.
(Hypothesis: every output line decodes; the spec leaves the behaviour on an
undecodable line unspecified.) -/
theorem run_error_iff_check_nonzero (st : PyState) (args : List String)
    (gradle_opts : String) (workdir : Option String) (check : Bool)
    (child : ChildBehavior)
    (h : ∀ l ∈ child.outputLines, (decodeLine l).isSome) :
    (check = true ∧ child.returncode ≠ 0 →
      ∃ e, (run st args gradle_opts workdir check child).2.outcome =
          Except.error (RunError.calledProcessError e) ∧
        e.returncode = child.returncode)
    ∧ (¬(check = true ∧ child.returncode ≠ 0) →
      ∃ r, (run st args gradle_opts workdir check child).2.outcome =
          Except.ok r ∧ r.returncode = child.returncode) := by
  have hl := loopTrace_decodable child.outputLines h
  constructor
  · rintro ⟨hc, hrc⟩
    subst hc
    refine ⟨{ returncode := child.returncode
              cmd := (popenCallOf st.osEnviron args gradle_opts workdir).command
              output := { remaining := [], closed := false }
              stderr := none }, ?_, rfl⟩
    have hb : (child.returncode != 0) = true := by simp [bne_iff_ne, hrc]
    simp [run, outcomeOf, hl, hb]
  · intro hn
    refine ⟨{ args := (popenCallOf st.osEnviron args gradle_opts workdir).command
              returncode := child.returncode
              stdout := { remaining := [], closed := true }
              stderr := none }, ?_, rfl⟩
    have hb : (check && (child.returncode != 0)) = false := by
      cases check with
      | false => rfl
      | true =>
        have h0 : child.returncode = 0 := by
          by_contra hrc
          exact hn ⟨rfl, hrc⟩
        simp [h0]
    simp [run, outcomeOf, hl, hb]

/-- C1 witness: a child that prints `hi` and exits 1 raises with exit code 1
under `check = true`, and returns exit code 1 under `check = false`. -/
theorem run_error_iff_check_nonzero_w :
    (∃ e, (run stEx ["a"] "" none true childFail).2.outcome =
        Except.error (RunError.calledProcessError e) ∧
      e.returncode = childFail.returncode)
    ∧ (∃ r, (run stEx ["a"] "" none false childFail).2.outcome =
        Except.ok r ∧ r.returncode = childFail.returncode) :=
  ⟨(run_error_iff_check_nonzero stEx ["a"] "" none true childFail
      (by decide)).1 ⟨rfl, by decide⟩,
   (run_error_iff_check_nonzero stEx ["a"] "" none false childFail
      (by decide)).2 (by simp)⟩

/-- C2 (code bug witness): on a checked failure the raised object carries the
exit code and the argument vector, but its output field is the
already-consumed stdout stream handle — no content remains on it — and its
stderr field is `None`: the child's output text (here the line `hi`) is not
carried anywhere in the error. -/
theorem run_error_output_is_consumed_stream :
    ∃ e, (run stEx ["build"] "" none true childFail).2.outcome =
        Except.error (RunError.calledProcessError e) ∧
      e.returncode = 1 ∧ e.cmd = ["./gradlew", "build"] ∧
      e.output.remaining = [] ∧ e.stderr = none :=
  ⟨{ returncode := 1
     cmd := ["./gradlew", "build"]
     output := { remaining := [], closed := false }
     stderr := none }, rfl, rfl, rfl, rfl, rfl⟩

/-- C3: when `gradle_opts` is empty, the `GRADLE_OPTS` entry of the child
environment is exactly the parent's (absent when absent there); when
non-empty, the child environment maps `GRADLE_OPTS` to exactly that string. -/
theorem run_gradle_opts_env (st : PyState) (args : List String)
    (gradle_opts : String) (workdir : Option String) (check : Bool)
    (child : ChildBehavior) :
    (gradle_opts = "" →
      (run st args gradle_opts workdir check child).2.call.env "GRADLE_OPTS" =
        st.osEnviron "GRADLE_OPTS")
    ∧ (gradle_opts ≠ "" →
      (run st args gradle_opts workdir check child).2.call.env "GRADLE_OPTS" =
        some gradle_opts) := by
  have hne : ("GRADLE_OPTS" : String) ≠ "ADB_INSTALL_TIMEOUT" := by decide
  constructor
  · intro hg
    simp [run, popenCallOf, childEnv, envSet, hg, hne]
  · intro hg
    simp [run, popenCallOf, childEnv, envSet, hg, hne]

/-- C3 witness: with an empty `gradle_opts` the entry equals the parent's
(here absent); with `-Xmx1g` it is exactly `-Xmx1g`. -/
theorem run_gradle_opts_env_w :
    (run stEx ["a"] "" none true childEx).2.call.env "GRADLE_OPTS" =
        stEx.osEnviron "GRADLE_OPTS"
    ∧ (run stEx ["a"] "-Xmx1g" none true childEx).2.call.env "GRADLE_OPTS" =
        some "-Xmx1g" :=
  ⟨(run_gradle_opts_env stEx ["a"] "" none true childEx).1 rfl,
   (run_gradle_opts_env stEx ["a"] "-Xmx1g" none true childEx).2 (by decide)⟩

/-- C4: for every invocation of `run`, regardless of all inputs and of the
parent environment, the child environment maps `ADB_INSTALL_TIMEOUT` to the
string `5`. -/
theorem run_adb_install_timeout (st : PyState) (args : List String)
    (gradle_opts : String) (workdir : Option String) (check : Bool)
    (child : ChildBehavior) :
    (run st args gradle_opts workdir check child).2.call.env
        "ADB_INSTALL_TIMEOUT" = some ADB_INSTALL_TIMEOUT
    ∧ ADB_INSTALL_TIMEOUT = "5" := by
  refine ⟨?_, rfl⟩
  simp [run, popenCallOf, childEnv, envSet]

/-- C5: the command vector `run` passes to the process-launch primitive is
the fixed wrapper path `./gradlew` followed by the supplied arguments in
their original order, with nothing inserted, dropped, or reordered. -/
theorem run_command_vector (st : PyState) (args : List String)
    (gradle_opts : String) (workdir : Option String) (check : Bool)
    (child : ChildBehavior) :
    (run st args gradle_opts workdir check child).2.call.command =
      "./gradlew" :: args := rfl

/-- C6: the property-flag formatter returns exactly the single token
`-P<name>=<value>`: precisely the characters `-P`, the name, `=`, and the
value, with nothing (in particular no whitespace) added. It is a total Lean
function with no effects. -/
theorem P_single_token (name value : String) :
    P name value = "-P" ++ name ++ "=" ++ value := by
  cases name with
  | mk nd =>
    cases value with
    | mk vd =>
      have h1 : pyFormatAux ("-P\x7b\x7d=\x7b\x7d" : String).data
          [String.mk nd, String.mk vd] =
          some ('-' :: 'P' :: (nd ++ '=' :: vd)) := by
        show pyFormatAux ['-', 'P', '\x7b', '\x7d', '=', '\x7b', '\x7d']
          [String.mk nd, String.mk vd] = _
        simp [pyFormatAux]
      refine String.ext ?_
      simp [P, pyFormat, h1, String.data_append]

/-- C7: the event trace of `run` is, after the command log and the spawn, an
interleaving in which each output line's read event is immediately followed
by that line's log event, before the next line is read and before the wait
for child termination: lines are logged in emission order, each as soon as
the pipe yields it, none deferred until after the wait. (Hypothesis: every
output line decodes.) -/
theorem run_streams_lines_in_order (st : PyState) (args : List String)
    (gradle_opts : String) (workdir : Option String) (check : Bool)
    (child : ChildBehavior)
    (h : ∀ l ∈ child.outputLines, (decodeLine l).isSome) :
    (run st args gradle_opts workdir check child).2.trace =
      (Event.logInfo (cmdLogLine (commandOf args) workdir) ::
        Event.spawn (commandOf args) workdir ::
          child.outputLines.flatMap (fun l =>
            [Event.readLine l,
             Event.logInfo (pyRstripStr ((decodeLine l).getD ""))]))
        ++ [Event.wait] := by
  have hl := loopTrace_decodable child.outputLines h
  simp [run, popenCallOf, hl]

/-- C7 witness: the concrete trace for a child printing `hi`. -/
theorem run_streams_lines_in_order_w :
    (∀ l ∈ childEx.outputLines, (decodeLine l).isSome)
    ∧ (run stEx ["assemble"] "" none true childEx).2.trace =
      (Event.logInfo (cmdLogLine (commandOf ["assemble"]) none) ::
        Event.spawn (commandOf ["assemble"]) none ::
          childEx.outputLines.flatMap (fun l =>
            [Event.readLine l,
             Event.logInfo (pyRstripStr ((decodeLine l).getD ""))]))
        ++ [Event.wait] :=
  ⟨by decide,
   run_streams_lines_in_order stEx ["assemble"] "" none true childEx
     (by decide)⟩

/-- C8: the working-directory argument is passed unchanged to the
process-launch primitive; and by that primitive's documented resolution,
omitting it (None) runs the child in the parent's current working directory,
while a given directory is used as such. -/
theorem run_workdir_passthrough (st : PyState) (args : List String)
    (gradle_opts : String) (workdir : Option String) (check : Bool)
    (child : ChildBehavior) (parentCwd : String) :
    (run st args gradle_opts workdir check child).2.call.cwd = workdir
    ∧ effectiveCwd parentCwd none = parentCwd
    ∧ ∀ w, effectiveCwd parentCwd (some w) = w :=
  ⟨rfl, rfl, fun _ => rfl⟩

/-- C9: `run` never mutates the parent environment — the returned interpreter
state is the one passed in — and every variable other than `GRADLE_OPTS` and
`ADB_INSTALL_TIMEOUT` has the same value in the child environment as in the
parent environment. -/
theorem run_preserves_parent_env (st : PyState) (args : List String)
    (gradle_opts : String) (workdir : Option String) (check : Bool)
    (child : ChildBehavior) :
    (run st args gradle_opts workdir check child).1 = st
    ∧ ∀ k, k ≠ "GRADLE_OPTS" → k ≠ "ADB_INSTALL_TIMEOUT" →
      (run st args gradle_opts workdir check child).2.call.env k =
        st.osEnviron k := by
  refine ⟨rfl, fun k hk1 hk2 => ?_⟩
  by_cases hg : gradle_opts = ""
  · simp [run, popenCallOf, childEnv, envSet, hg, hk2]
  · simp [run, popenCallOf, childEnv, envSet, hg, hk1, hk2]

/-- C9 witness: the state comes back unchanged and `PATH` is preserved in the
child environment. -/
theorem run_preserves_parent_env_w :
    (run stEx ["a"] "-Xmx1g" none true childEx).1 = stEx
    ∧ (run stEx ["a"] "-Xmx1g" none true childEx).2.call.env "PATH" =
        stEx.osEnviron "PATH" :=
  ⟨(run_preserves_parent_env stEx ["a"] "-Xmx1g" none true childEx).1,
   (run_preserves_parent_env stEx ["a"] "-Xmx1g" none true childEx).2 "PATH"
     (by decide) (by decide)⟩

/-- C10: the lines forwarded to the logger are exactly the child's output
lines byte-decoded and then stripped of trailing whitespace, in order; the
newline is among the stripped whitespace characters. (Hypothesis: every
output line decodes.) -/
theorem run_logs_decoded_rstripped (st : PyState) (args : List String)
    (gradle_opts : String) (workdir : Option String) (check : Bool)
    (child : ChildBehavior)
    (h : ∀ l ∈ child.outputLines, (decodeLine l).isSome) :
    outputLogTexts (run st args gradle_opts workdir check child).2 =
      child.outputLines.map (fun l => pyRstripStr ((decodeLine l).getD ""))
    ∧ pyIsSpace '\n' = true := by
  refine ⟨?_, rfl⟩
  have hl := loopTrace_decodable child.outputLines h
  have htr : (run st args gradle_opts workdir check child).2.trace =
      Event.logInfo (cmdLogLine (commandOf args) workdir) ::
        Event.spawn (commandOf args) workdir ::
          (child.outputLines.flatMap (fun l =>
            [Event.readLine l,
             Event.logInfo (pyRstripStr ((decodeLine l).getD ""))])
            ++ [Event.wait]) := by
    simp [run, popenCallOf, hl]
  have h3 := logTexts_loop (fun l => pyRstripStr ((decodeLine l).getD ""))
    child.outputLines
  rw [outputLogTexts, htr]
  simp [logTexts] at h3 ⊢
  simp [h3]

/-- C10 witness: the line ` hi \n` (with trailing blank and newline) is
logged as ` hi`. -/
theorem run_logs_decoded_rstripped_w :
    outputLogTexts (run stEx ["a"] "" none true childEx2).2 = [" hi"] :=
  ((run_logs_decoded_rstripped stEx ["a"] "" none true childEx2
      (by decide)).1).trans (by decide)
